import Mathlib

/-!
# Verification of the property-search agent (backend/app/property_agent.py)

Shallow embedding of the query-understanding and result-ranking pipeline of
the conversational real-estate search backend, together with proofs settling
the frozen claims about its specification.

Modelling conventions:
* Python dict rows are a `Listing` structure whose optional fields model
  present/absent dictionary keys; the out-of-band metadata keys
  (`_total_count`, `_dedup_stats`, `_search_method`, `_recommendation_score`,
  `_dedup_key`) become `Option` fields.
* Python floats are modelled as exact rationals (`ℚ`).
* The SQLite table is a `List Listing` parameter and a SQL `WHERE` clause is
  the corresponding Boolean row predicate; `LIKE '%x%'` is ASCII
  case-insensitive substring containment.
* The wall clock (`datetime.now()`) is an explicit civil-day-number
  parameter `now : ℤ`.
* The LLM capability (`llm_service.get_completion`) is an `Option`-valued
  parameter: `none` models the "unavailable" sentinel (or unparseable JSON,
  which the code treats identically through its exception handler).
-/

namespace PropertyAgent

/-! ## Generic string machinery (Python / SQLite primitives) -/

/-- Does `pat` occur at the start of `l`?  (List-level prefix test.) -/
def leadsWith : List Char → List Char → Bool
  | [], _ => true
  | _ :: _, [] => false
  | a :: as, b :: bs => a == b && leadsWith as bs

/-- Does `pat` occur somewhere inside `l`?  (Python `pat in l`.) -/
def occursIn (pat : List Char) : List Char → Bool
  | [] => pat.isEmpty
  | c :: rest => leadsWith pat (c :: rest) || occursIn pat rest

/-- Python `needle in hay` on strings. -/
def strContains (hay needle : String) : Bool :=
  occursIn needle.data hay.data

/-- ASCII lower-casing of one character (the fragment of Python `str.lower`
relevant to this code base, whose non-ASCII text is already lower-case-free). -/
def asciiLowerChar (c : Char) : Char :=
  if 'A' ≤ c ∧ c ≤ 'Z' then Char.ofNat (c.toNat + 32) else c

/-- Python `s.lower()` (ASCII fragment). -/
def asciiLower (s : String) : String :=
  ⟨s.data.map asciiLowerChar⟩

/-- Python `str.split(sep)` for a one-character separator: splits on every
occurrence, keeping empty fields. -/
def splitOnChar (sep : Char) : List Char → List (List Char)
  | [] => [[]]
  | c :: rest =>
    let parts := splitOnChar sep rest
    if c = sep then [] :: parts
    else
      match parts with
      | [] => [[c]]
      | p :: ps => (c :: p) :: ps

/-- Whitespace as stripped by Python `str.strip()` / split by `str.split()`. -/
def isPySpace (c : Char) : Bool :=
  c = ' ' ∨ c = '\t' ∨ c = '\n' ∨ c = '\r' ∨ c = '\x0b' ∨ c = '\x0c'

/-- Python `str.strip()` on a character list. -/
def stripChars (l : List Char) : List Char :=
  ((l.dropWhile isPySpace).reverse.dropWhile isPySpace).reverse

/-- Python `str.strip()`. -/
def pyStrip (s : String) : String :=
  ⟨stripChars s.data⟩

/-- First whitespace-separated token of a string (`s.split()[0]`), `none`
when `s.split()` is empty. -/
def firstToken (s : String) : Option String :=
  let l := s.data.dropWhile isPySpace
  match l.takeWhile (fun c => ¬ isPySpace c) with
  | [] => none
  | t => some ⟨t⟩

/-- Everything before the first occurrence of `c` (`s.split(c)[0]`). -/
def takeUntil (c : Char) (l : List Char) : List Char :=
  l.takeWhile (fun x => x ≠ c)

/-- Numeric value of a list of decimal digit characters. -/
def digitsToNat (l : List Char) : ℕ :=
  l.foldl (fun acc c => acc * 10 + (c.toNat - '0'.toNat)) 0

/-- Python `int(s)` on a string: optional sign after stripped whitespace,
then a non-empty run of ASCII digits; anything else raises (`none`). -/
def pyParseInt (s : String) : Option ℤ :=
  match stripChars s.data with
  | [] => none
  | '-' :: ds => if ds ≠ [] ∧ ds.all Char.isDigit then some (-(digitsToNat ds : ℤ)) else none
  | '+' :: ds => if ds ≠ [] ∧ ds.all Char.isDigit then some (digitsToNat ds : ℤ) else none
  | ds => if ds.all Char.isDigit then some (digitsToNat ds : ℤ) else none

/-- SQLite `CAST(s AS INTEGER)`: value of the longest numeric prefix, `0`
when there is none. -/
def castIntSql (s : String) : ℤ :=
  match s.data with
  | '-' :: ds => -(digitsToNat (ds.takeWhile Char.isDigit) : ℤ)
  | '+' :: ds => (digitsToNat (ds.takeWhile Char.isDigit) : ℤ)
  | ds => (digitsToNat (ds.takeWhile Char.isDigit) : ℤ)

/-- Decimal digit characters of a natural number (most significant first);
fuel-driven so that it reduces by `decide`. -/
def natDigitsAux : ℕ → ℕ → List Char
  | 0, _ => []
  | _ + 1, 0 => []
  | fuel + 1, n =>
    natDigitsAux fuel (n / 10) ++ [Char.ofNat ('0'.toNat + n % 10)]

/-- Decimal digit characters of `n` (at least one digit). -/
def natDigits (n : ℕ) : List Char :=
  match natDigitsAux (n + 1) n with
  | [] => ['0']
  | l => l

/-- Group a reversed digit list into blocks of three with `,` separators. -/
def commaGroupRev : List Char → List Char
  | a :: b :: c :: d :: rest => a :: b :: c :: ',' :: commaGroupRev (d :: rest)
  | l => l

/-- Python `f"{n:,}"` for a natural number. -/
def pyFmtCommaNat (n : ℕ) : String :=
  ⟨(commaGroupRev (natDigits n).reverse).reverse⟩

/-- Python `f"{i:,}"` for an integer. -/
def pyFmtCommaInt (i : ℤ) : String :=
  if i < 0 then "-" ++ pyFmtCommaNat i.natAbs else pyFmtCommaNat i.natAbs

/-- Python `int(q)` on a float value: truncation toward zero. -/
def pyIntOfRat (q : ℚ) : ℤ :=
  if q < 0 then -(⌊-q⌋) else ⌊q⌋

/-- Python `"\n".join(parts)`. -/
def joinNL : List String → String
  | [] => ""
  | [s] => s
  | s :: t :: rest => s ++ "\n" ++ joinNL (t :: rest)

/-- Python `", ".join(parts)` / `"、".join(parts)`: general separator join. -/
def joinSep (sep : String) : List String → String
  | [] => ""
  | [s] => s
  | s :: t :: rest => s ++ sep ++ joinSep sep (t :: rest)

/-! ## TextNormalizer (`_normalize_location_text`) -/

/-- One character-level substitution (Python `str.replace` with
single-character arguments). -/
def replaceChar (a b : Char) (l : List Char) : List Char :=
  l.map fun c => if c = a then b else c

/-- `_normalize_location_text`: the fixed, ordered script-variant
substitutions ヶ→ケ, が→ガ, ヴ→ブ applied before substring matching. -/
def normalize_location_text (text : String) : String :=
  if text = "" then text
  else ⟨replaceChar 'ヴ' 'ブ' (replaceChar 'が' 'ガ' (replaceChar 'ヶ' 'ケ' text.data))⟩

/-- The composite of the three ordered substitutions, per character. -/
def normSubstChar (c : Char) : Char :=
  if c = 'ヶ' then 'ケ' else if c = 'が' then 'ガ' else if c = 'ヴ' then 'ブ' else c

/-! ## Data model

A `Listing` models one Python dict row of the `BUY_data_integrated` table,
possibly annotated with the agent's out-of-band metadata keys.  An `Option`
field is `none` exactly when the corresponding dictionary key is absent
(or SQL NULL). -/

structure DedupStats where
  original_count : ℕ
  duplicates_removed : ℕ
  unique_count : ℕ
deriving DecidableEq

structure Listing where
  address : Option String := none
  mi_price : Option String := none
  floor_plan : Option String := none
  pref : Option String := none
  traffic1 : Option String := none
  last_listed_date : Option String := none
  dt : Option String := none
  distance_km : Option ℚ := none
  /-- metadata key `_total_count` -/
  total_count : Option ℕ := none
  /-- metadata key `_search_method` -/
  search_method : Option String := none
  /-- metadata key `_recommendation_score` -/
  recommendation_score : Option ℚ := none
  /-- metadata key `_dedup_key` -/
  dedup_key : Option (String × String × String) := none
  /-- metadata key `_dedup_stats` -/
  dedup_stats : Option DedupStats := none
deriving DecidableEq

/-- The fabricated metadata-only row `{'_total_count': n}`. -/
def placeholderRow (n : ℕ) : Listing :=
  { total_count := some n }

/-! ## Dates (for `_score_by_listing_date`) -/

def isLeapYear (y : ℤ) : Bool :=
  (y % 4 = 0 ∧ y % 100 ≠ 0) ∨ y % 400 = 0

def daysInMonth (y : ℤ) (m : ℕ) : ℕ :=
  if m = 2 then (if isLeapYear y then 29 else 28)
  else if m = 4 ∨ m = 6 ∨ m = 9 ∨ m = 11 then 30
  else 31

/-- Civil date to day number (days since 1970-01-01), standard era-based
conversion; all divisions below act on non-negative operands for the
4-digit years accepted by the parser. -/
def daysFromCivil (y : ℤ) (m d : ℕ) : ℤ :=
  let yAdj : ℤ := if m ≤ 2 then y - 1 else y
  let era : ℤ := (if 0 ≤ yAdj then yAdj else yAdj - 399) / 400
  let yoe : ℤ := yAdj - era * 400
  let mp : ℤ := ((m : ℤ) + 9) % 12
  let doy : ℤ := (153 * mp + 2) / 5 + (d : ℤ) - 1
  let doe : ℤ := yoe * 365 + yoe / 4 - yoe / 100 + doy
  era * 146097 + doe - 719468

/-- `datetime.strptime(s, "%Y-%m-%d")`: 4-digit year, 1-2 digit month and
day, with calendar validation; `none` models the `ValueError`. -/
def parseDateYMD (s : String) : Option ℤ :=
  match splitOnChar '-' s.data with
  | [ys, ms, ds] =>
    if ys.length = 4 ∧ ys.all Char.isDigit ∧
       1 ≤ ms.length ∧ ms.length ≤ 2 ∧ ms.all Char.isDigit ∧
       1 ≤ ds.length ∧ ds.length ≤ 2 ∧ ds.all Char.isDigit then
      let y : ℤ := (digitsToNat ys : ℤ)
      let m : ℕ := digitsToNat ms
      let d : ℕ := digitsToNat ds
      if 1 ≤ m ∧ m ≤ 12 ∧ 1 ≤ d ∧ d ≤ daysInMonth y m then
        some (daysFromCivil y m d)
      else none
    else none
  | _ => none

/-- The date-string acceptance of `_score_by_listing_date`: first the full
string, then (on failure) its first whitespace-separated token. -/
def parseListedDate (s : String) : Option ℤ :=
  match parseDateYMD s with
  | some d => some d
  | none =>
    match firstToken s with
    | some t => parseDateYMD t
    | none => none

/-! ## RecommendationScorer -/

/-- `_score_by_listing_date`: returns `(score, weight)`.  A missing or
falsy date field, a non-string value, or an unparsable date string yields
the neutral `(50, 1)`. -/
def score_by_listing_date (now : ℤ) (p : Listing) : ℚ × ℚ :=
  match p.last_listed_date with
  | none => (50, 1)
  | some s =>
    if s = "" then (50, 1)
    else
      match parseListedDate s with
      | none => (50, 1)
      | some listed =>
        let days : ℤ := now - listed
        let score : ℚ :=
          if days ≤ 0 then 100
          else if days ≤ 7 then 100 - (days : ℚ) * (286 / 100)
          else if days ≤ 30 then 80 - ((days : ℚ) - 7) * (130 / 100)
          else if days ≤ 90 then 50 - ((days : ℚ) - 30) * (50 / 100)
          else if days ≤ 180 then 20 - ((days : ℚ) - 90) * (11 / 100)
          else 10
        (max 0 score, 1)

/-- `calculate_recommendation_score`: weighted average of the sub-scorers
(currently the single listing-date scorer), normalised and clamped to
[0, 100]. -/
def calculate_recommendation_score (now : ℤ) (p : Listing) : ℚ :=
  let sw := score_by_listing_date now p
  let total_score := sw.1 * sw.2
  let max_possible := 100 * sw.2
  if max_possible = 0 then 0
  else min 100 (max 0 (total_score / max_possible * 100))

/-! ## Deduplicator -/

/-- The address-tail step of `_normalize_address_for_dedup`: the stripped
part after the last ward suffix 区 (else after the last city suffix 市,
else the whole string). -/
def addressTailAfterWardCity (address : String) : List Char :=
  let partsKu := splitOnChar '区' address.data
  if 1 < partsKu.length then stripChars (partsKu.getLastD [])
  else
    let partsShi := splitOnChar '市' address.data
    if 1 < partsShi.length then stripChars (partsShi.getLastD [])
    else address.data

/-- `_normalize_address_for_dedup`: tail after the last ward/city suffix,
then cut at the first ASCII hyphen, stripped. -/
def normalize_address_for_dedup (address : String) : String :=
  if address = "" then address
  else
    let tail1 := addressTailAfterWardCity address
    let tail2 := if tail1.contains '-' then takeUntil '-' tail1 else tail1
    ⟨stripChars tail2⟩

/-- Remove every occurrence of `pat` from a character list
(Python `str.replace(pat, "")`), fuel-driven. -/
def removeSubAux : ℕ → List Char → List Char → List Char
  | 0, _, l => l
  | _ + 1, _, [] => []
  | fuel + 1, pat, c :: rest =>
    if leadsWith pat (c :: rest) then removeSubAux fuel pat ((c :: rest).drop pat.length)
    else c :: removeSubAux fuel pat rest

/-- Python `s.replace(pat, "")`. -/
def pyRemoveSub (pat s : String) : String :=
  ⟨removeSubAux (s.data.length + 1) pat.data s.data⟩

/-- The floor-plan component of the dedup key:
`.replace("+S（納戸）", "").replace("（納戸）", "").strip()`. -/
def normalizeFloorPlan (fp : String) : String :=
  pyStrip (pyRemoveSub "（納戸）" (pyRemoveSub "+S（納戸）" fp))

/-- The dedup key `(normalized address, price string, normalized floor plan)`. -/
def duplicateKey (r : Listing) : String × String × String :=
  (normalize_address_for_dedup (r.address.getD ""),
   pyStrip (r.mi_price.getD ""),
   normalizeFloorPlan (r.floor_plan.getD ""))

/-- The first-occurrence pass of `_remove_duplicates`: keeps the first
record of each key (annotated with its recommendation score and key) and
counts the duplicates dropped. -/
def dedupLoop (now : ℤ) : List Listing → List (String × String × String) → List Listing × ℕ
  | [], _ => ([], 0)
  | r :: rs, seen =>
    let key := duplicateKey r
    if seen.contains key then
      let t := dedupLoop now rs seen
      (t.1, t.2 + 1)
    else
      let scored : Listing :=
        { r with recommendation_score := some (calculate_recommendation_score now r),
                 dedup_key := some key }
      let t := dedupLoop now rs (key :: seen)
      (scored :: t.1, t.2)

/-- Stable insertion, descending under the strict comparison `gt`
(models Python `list.sort(key=..., reverse=True)`). -/
def insertDescBy {α : Type} (gt : α → α → Bool) (x : α) : List α → List α
  | [] => [x]
  | y :: ys => if gt y x then y :: insertDescBy gt x ys else x :: y :: ys

/-- Stable descending sort. -/
def sortDescBy {α : Type} (gt : α → α → Bool) : List α → List α
  | [] => []
  | x :: xs => insertDescBy gt x (sortDescBy gt xs)

/-- `x.get('_recommendation_score', 0)` comparison used by the dedup sort. -/
def scoreGt (a b : Listing) : Bool :=
  decide ((b.recommendation_score.getD 0) < (a.recommendation_score.getD 0))

/-- The head-of-list metadata update at the end of `_remove_duplicates`:
`unique_results[0]['_total_count'] = len(unique_results)` plus dedup stats
and search-method propagation. -/
def attachDedupMeta (r0 : Listing) (stats : DedupStats) : List Listing → List Listing
  | [] => []
  | u0 :: urest =>
    if r0.total_count.isSome then
      ({ u0 with total_count := some (urest.length + 1),
                 dedup_stats := some stats,
                 search_method := if r0.search_method.isSome then r0.search_method
                                  else u0.search_method } : Listing) :: urest
    else
      ({ u0 with total_count := some (urest.length + 1),
                 dedup_stats := some stats,
                 search_method := some "duplicate_removed" } : Listing) :: urest

/-- `_remove_duplicates`: dedup by key, score, sort by score descending,
then overwrite the head's `_total_count` with the deduplicated length. -/
def remove_duplicates (now : ℤ) (results : List Listing) : List Listing × DedupStats :=
  match results with
  | [] => ([], ⟨0, 0, 0⟩)
  | r0 :: rest =>
    let dl := dedupLoop now (r0 :: rest) []
    let sorted := sortDescBy scoreGt dl.1
    let stats : DedupStats :=
      { original_count := (r0 :: rest).length,
        duplicates_removed := dl.2,
        unique_count := dl.1.length }
    (attachDedupMeta r0 stats sorted, stats)

/-! ## SearchExecutor (`_execute_complex_search`) -/

/-- The validated shape of the LLM query analysis / the deterministic
fallback extractor (`SearchIntent`). -/
structure QueryAnalysis where
  query_type : String := "complex_search"
  min_price : Option ℤ := none
  max_price : Option ℤ := none
  prefectures : List String := []
  cities : List String := []
  areas : List String := []
  stations : List String := []
  floor_plan : Option String := none
deriving DecidableEq

/-- Python truthiness of `dict.get(...)` for a numeric field. -/
def pyTruthyIntOpt : Option ℤ → Bool
  | none => false
  | some v => decide (v ≠ 0)

/-- Python truthiness of `dict.get(...)` for a string field. -/
def pyTruthyStrOpt : Option String → Bool
  | none => false
  | some s => decide (s ≠ "")

/-- SQL `col LIKE '%needle%'`: ASCII case-insensitive substring
containment; a NULL column never matches. -/
def likeContains (col : Option String) (needle : String) : Bool :=
  match col with
  | none => false
  | some s => strContains (asciiLower s) (asciiLower needle)

/-- The conjunctive WHERE clause built by `_execute_complex_search`,
as a row predicate: price bounds on `CAST(mi_price AS INTEGER)`, OR-groups
for prefectures / cities+areas / stations, and a floor-plan LIKE. -/
def rowMatches (qa : QueryAnalysis) (r : Listing) : Bool :=
  (if pyTruthyIntOpt qa.min_price then
     match r.mi_price with
     | none => false
     | some s => decide (qa.min_price.getD 0 ≤ castIntSql s)
   else true) &&
  (if pyTruthyIntOpt qa.max_price then
     match r.mi_price with
     | none => false
     | some s => decide (castIntSql s ≤ qa.max_price.getD 0)
   else true) &&
  (if qa.prefectures.isEmpty then true
   else qa.prefectures.any fun p => likeContains r.pref p || likeContains r.address p) &&
  (if (qa.cities ++ qa.areas).isEmpty then true
   else (qa.cities ++ qa.areas).any fun a =>
     likeContains r.address a || likeContains r.pref a || likeContains r.traffic1 a) &&
  (if qa.stations.isEmpty then true
   else qa.stations.any fun st => likeContains r.traffic1 st) &&
  (if pyTruthyStrOpt qa.floor_plan then likeContains r.floor_plan (qa.floor_plan.getD "")
   else true)

/-- `_execute_complex_search`: COUNT query and unbounded sample query over
the same predicate; the total is attached to the first real row, and a
metadata-only placeholder row is fabricated when the sample is empty. -/
def execute_complex_search (qa : QueryAnalysis) (table : List Listing) : List Listing :=
  let matched := table.filter (rowMatches qa)
  let total := matched.length
  match matched with
  | [] => [placeholderRow total]
  | r :: rs => ({ r with total_count := some total } : Listing) :: rs

/-! ## ResultAnalyzer (`_analyze_search_results`) -/

structure PriceStats where
  min_price : ℤ
  max_price : ℤ
  avg_price : ℚ
  count : ℕ
deriving DecidableEq

structure Analysis where
  total_count : ℕ
  price_stats : Option PriceStats
  prefecture_distribution : List (String × ℕ)
  floor_plan_distribution : List (String × ℕ)
deriving DecidableEq

/-- Increment the count of `k` in an insertion-ordered association list. -/
def bumpTally (k : String) : List (String × ℕ) → List (String × ℕ)
  | [] => [(k, 1)]
  | (k2, n) :: rest => if k2 = k then (k2, n + 1) :: rest else (k2, n) :: bumpTally k rest

/-- First-seen-ordered occurrence counts (a Python dict used as a counter). -/
def tally (keys : List String) : List (String × ℕ) :=
  keys.foldl (fun acc k => bumpTally k acc) []

/-- Descending comparison on counts for the top-10 distributions. -/
def countGt (a b : String × ℕ) : Bool :=
  decide (b.2 < a.2)

/-- `_analyze_search_results`: `total_count` prefers the out-of-band
`_total_count` of the first row over `len(results)`; price stats over rows
with a strictly positive parsed price; top-10 prefecture and floor-plan
distributions (stable count-descending order). -/
def analyze_search_results (results : List Listing) : Analysis :=
  match results with
  | [] => { total_count := 0, price_stats := none,
            prefecture_distribution := [], floor_plan_distribution := [] }
  | r0 :: _ =>
    let total := match r0.total_count with | some n => n | none => results.length
    let prices := results.filterMap fun r =>
      match (match r.mi_price with | none => some (0 : ℤ) | some s => pyParseInt s) with
      | none => none
      | some p => if 0 < p then some p else none
    let price_stats :=
      match prices with
      | [] => none
      | p :: ps =>
        some { min_price := ps.foldl min p,
               max_price := ps.foldl max p,
               avg_price := ((prices.foldl (fun a b => a + b) 0 : ℤ) : ℚ) / (prices.length : ℚ),
               count := prices.length }
    let prefs := tally (results.filterMap fun r =>
      match r.pref with
      | none => none
      | some s => if s = "" then none else some s)
    let plans := tally (results.filterMap fun r =>
      match r.floor_plan with
      | none => none
      | some s => if s = "" then none else some s)
    { total_count := total,
      price_stats := price_stats,
      prefecture_distribution := (sortDescBy countGt prefs).take 10,
      floor_plan_distribution := (sortDescBy countGt plans).take 10 }

/-! ## ResponseComposer -/

/-- Plain decimal representation of a natural number (Python `f"{n}"`). -/
def pyReprNat (n : ℕ) : String :=
  ⟨natDigits n⟩

/-- Greatest index at which `c` occurs in `l`. -/
def lastIdxOf (c : Char) : List Char → Option ℕ
  | [] => none
  | x :: xs =>
    match lastIdxOf c xs with
    | some k => some (k + 1)
    | none => if x = c then some 0 else none

/-- Leftmost-greedy match of the regex `[^\s]+c` (a run of non-whitespace
ending in the suffix character `c`, needing at least one character before
it), as used by `_extract_search_area_from_message`. -/
def firstRegexSuffixRun (c : Char) : List Char → Option (List Char)
  | [] => none
  | x :: xs =>
    if isPySpace x then firstRegexSuffixRun c xs
    else
      let run := x :: xs.takeWhile (fun ch => ¬ isPySpace ch)
      match lastIdxOf c run with
      | some k => if 1 ≤ k then some (run.take (k + 1)) else firstRegexSuffixRun c xs
      | none => firstRegexSuffixRun c xs

/-- `_extract_search_area_from_message`. -/
def extract_search_area_from_message (message : String) : String :=
  if strContains message "東京都" || strContains message "東京" then "東京都"
  else if strContains message "船橋法典" then "船橋法典駅周辺"
  else if strContains message "船橋" then "船橋市"
  else
    match firstRegexSuffixRun '県' message.data with
    | some m => ⟨m⟩
    | none =>
      match firstRegexSuffixRun '府' message.data with
      | some m => ⟨m⟩
      | none =>
        match firstRegexSuffixRun '都' message.data with
        | some m => ⟨m⟩
        | none =>
          match firstRegexSuffixRun '道' message.data with
          | some m => ⟨m⟩
          | none => "指定地域"

/-- Result of `_preprocess_location_query` (LLM JSON, or the deterministic
default produced by its exception handler). -/
structure Preproc where
  has_location : Bool := false
  original_input : String := ""
  normalized_locations : List String := []
  correction_made : Bool := false
  confidence : ℚ := 0
deriving DecidableEq

/-- The default preprocessing dict returned when the LLM call or its JSON
parse fails. -/
def fallbackPreproc : Preproc := {}

/-- The ordered `response_parts` list assembled by
`_generate_fallback_response` for a non-zero total. -/
def fallbackResponseParts (user_message : String) (search_results : List Listing)
    (analysis : Analysis) (pre : Option Preproc) : List String :=
  let corrParts : List String :=
    match pre with
    | none => []
    | some p =>
      if p.correction_made then
        if p.normalized_locations ≠ [] then
          ["「" ++ p.original_input ++ "」を「" ++
            joinSep ", " p.normalized_locations ++ "」で検索しました。"]
        else []
      else []
  let search_area := extract_search_area_from_message user_message
  let headParts : List String :=
    [search_area ++ "に関する不動産物件の検索結果は以下の通りです。", "",
     "【検索結果データ】",
     "- 総件数: " ++ pyFmtCommaNat analysis.total_count ++ "件"]
  let priceParts : List String :=
    match analysis.price_stats with
    | none => []
    | some ps =>
      if ps.min_price ≠ 0 ∧ ps.max_price ≠ 0 ∧ ps.avg_price ≠ 0 then
        ["- 価格統計: 最安値 " ++ pyFmtCommaInt (pyIntOfRat ((ps.min_price : ℚ) / 10000)) ++
         "万円、最高値 " ++ pyFmtCommaInt (pyIntOfRat ((ps.max_price : ℚ) / 10000)) ++
         "万円、平均価格 " ++ pyFmtCommaInt (pyIntOfRat (ps.avg_price / 10000)) ++ "万円"]
      else []
  let planParts : List String :=
    if analysis.floor_plan_distribution ≠ [] then
      ["- 主な間取り: " ++ joinSep "、"
        ((analysis.floor_plan_distribution.take 5).map fun kv =>
          kv.1 ++ " (" ++ pyReprNat kv.2 ++ "件)")]
    else []
  let exampleParts : List String :=
    if search_results ≠ [] then
      "" :: "【実際の物件例】" ::
      ((search_results.take 5).enum.map fun ia =>
        let r := ia.2
        let priceStr := r.mi_price.getD "価格不明"
        let price_display :=
          match pyParseInt priceStr with
          | some v => pyFmtCommaInt (pyIntOfRat ((v : ℚ) / 10000)) ++ "万円"
          | none => priceStr ++ "円"
        pyReprNat (ia.1 + 1) ++ ". " ++ r.address.getD "住所不明" ++ " " ++
          r.floor_plan.getD "間取り不明" ++ " " ++ price_display)
    else []
  let refineParts : List String :=
    if 100 < analysis.total_count then
      ["【絞り込み推奨】",
       "検索結果が" ++ pyFmtCommaNat analysis.total_count ++
         "件と多いため、より具体的な条件での絞り込みをお勧めします。",
       "以下の条件で絞り込んでみてください：",
       "- より具体的な地域名（○○町、○○駅周辺など）",
       "- 価格帯（例：5000万円以下、1億円以下など）",
       "- 間取り（例：3LDK、4LDKなど）",
       "- 築年数（例：築10年以内など）",
       "",
       "もう少し絞り込んでいただけると、より適切な物件をご提案できます。",
       ""]
    else []
  let closing : List String :=
    ["以上の情報から、" ++ search_area ++
      "には様々な間取りと価格帯の物件が存在していることが分かります。"]
  corrParts ++ headParts ++ priceParts ++ planParts ++ exampleParts ++ [""] ++
    refineParts ++ closing

/-- `_generate_fallback_response`: the deterministic response composer used
when the LLM is unavailable or its output is rejected. -/
def generate_fallback_response (user_message : String) (search_results : List Listing)
    (analysis : Analysis) (pre : Option Preproc) : String :=
  if analysis.total_count = 0 then
    "申し訳ございませんが、指定された条件に合う物件は見つかりませんでした。検索条件を変更して再度お試しください。"
  else joinNL (fallbackResponseParts user_message search_results analysis pre)

/-- `_generate_ai_response` after the LLM call: `none` (unavailable) and a
"no results while total_count > 0" answer are both replaced by the
deterministic fallback composer. -/
def generate_ai_response (llmResponse : Option String) (user_message : String)
    (search_results : List Listing) (analysis : Analysis) (pre : Option Preproc) : String :=
  match llmResponse with
  | none => generate_fallback_response user_message search_results analysis pre
  | some r =>
    if 0 < analysis.total_count ∧
       (strContains r "見当たりませんでした" = true ∨
        strContains r "見つかりませんでした" = true) then
      generate_fallback_response user_message search_results analysis pre
    else r

/-! ## Geo-radius response path -/

/-- Python float printing (terminating decimals, as produced by the radius
values used by the agent). -/
def fracDigitsAux : ℕ → ℚ → List Char
  | 0, _ => []
  | fuel + 1, q =>
    if q = 0 then []
    else
      let q10 := q * 10
      let d : ℤ := ⌊q10⌋
      Char.ofNat ('0'.toNat + d.toNat) :: fracDigitsAux fuel (q10 - (d : ℚ))

/-- Python `f"{x}"` for a non-negative float value (modelled exactly). -/
def pyFloatRepr (q : ℚ) : String :=
  let ip := (⌊q⌋).toNat
  let ds := fracDigitsAux 17 (q - (⌊q⌋ : ℚ))
  pyReprNat ip ++ "." ++ (if ds.isEmpty then "0" else ⟨ds⟩)

/-- Python `f"{x:.1f}"` for a non-negative float value. -/
def pyFmtFixed1 (q : ℚ) : String :=
  let scaled := (⌊q * 10 + 1 / 2⌋).toNat
  pyReprNat (scaled / 10) ++ "." ++ pyReprNat (scaled % 10)

/-- `_generate_geo_fallback_response`. -/
def generate_geo_fallback_response (detected_address : String)
    (search_results : List Listing) (total_count : ℕ)
    (latitude longitude radius_km : ℚ) : String :=
  if total_count = 0 then
    "「" ++ detected_address ++ "」から半径" ++ pyFloatRepr radius_km ++
    "km以内の物件検索結果\n\n【検索条件】\n- 指定住所: " ++ detected_address ++
    "\n- 検索半径: " ++ pyFloatRepr radius_km ++
    "km\n- 総件数: 0件\n\n申し訳ございませんが、指定された住所から半径" ++
    pyFloatRepr radius_km ++
    "km以内には対象物件が見つかりませんでした。\n検索範囲を広げるか、別の地域での検索をお試しください。"
  else
    let statsPairs := search_results.filterMap fun r =>
      match (match r.mi_price with | none => some (0 : ℤ) | some s => pyParseInt s) with
      | none => none
      | some p => some (p, r.floor_plan.getD "不明")
    let prices := statsPairs.filterMap fun pr => if 0 < pr.1 then some pr.1 else none
    let floorTally := tally (statsPairs.map fun pr => pr.2)
    let price_stats :=
      match prices with
      | [] => "価格情報なし"
      | p :: ps =>
        "最安値 " ++ pyFmtCommaInt (ps.foldl min p) ++ "円、最高値 " ++
        pyFmtCommaInt (ps.foldl max p) ++ "円、平均価格 " ++
        pyFmtCommaInt ((prices.foldl (fun a b => a + b) 0) / (prices.length : ℤ)) ++ "円"
    let top_floor := (sortDescBy countGt floorTally).take 3
    let floor_plan_stats :=
      joinSep "、" (top_floor.map fun kv => kv.1 ++ " (" ++ pyReprNat kv.2 ++ "件)")
    let property_examples := (search_results.take 5).enum.map fun ia =>
      let r := ia.2
      let distance_str :=
        match r.distance_km with
        | none => ""
        | some d => if d = 0 then "" else "（約" ++ pyFmtFixed1 d ++ "km）"
      pyReprNat (ia.1 + 1) ++ ". " ++ r.address.getD "不明" ++ " " ++
        r.floor_plan.getD "不明" ++ " " ++ r.mi_price.getD "不明" ++ "円 " ++ distance_str
    "「" ++ detected_address ++ "」から半径" ++ pyFloatRepr radius_km ++
    "km以内の物件検索結果\n\n【検索条件】\n- 指定住所: " ++ detected_address ++
    "\n- 検索半径: " ++ pyFloatRepr radius_km ++ "km\n- 総件数: " ++
    pyReprNat total_count ++
    "件\n\n【価格・間取り情報】\n- 価格統計: " ++ price_stats ++
    "\n- 主な間取り: " ++ floor_plan_stats ++
    "\n\n【近隣物件例（距離順）】\n" ++ joinNL property_examples ++
    "\n\n指定された住所を中心として、半径" ++ pyFloatRepr radius_km ++
    "km以内にある物件を距離の近い順に表示しています。\nご希望に合う物件がございましたら、詳細をお聞かせください。"

/-- `_generate_geo_search_response` after the LLM call: the LLM answer is
returned unchanged whenever one is produced; only unavailability (or an
exception) falls back, and the fallback receives `len(search_results)` as
its total. -/
def generate_geo_search_response (llmResponse : Option String)
    (detected_address : String) (search_results : List Listing)
    (analysis : Analysis) (latitude longitude radius_km : ℚ) : String :=
  match llmResponse with
  | none =>
    generate_geo_fallback_response detected_address search_results
      search_results.length latitude longitude radius_km
  | some r => r

/-! ## QueryClassifier (`_is_count_only_query` and `analyze_query` routing) -/

def count_keywords : List String :=
  ["何件", "件数", "総数", "合計", "全体", "全部で", "トータル",
   "登録されて", "データベース", "db", "全物件", "物件数"]

def complex_keywords : List String :=
  ["価格", "円", "万円", "億円", "予算", "相場", "安い", "高い",
   "都道府県", "市", "区", "エリア", "地域", "駅", "沿線",
   "間取り", "ldk", "dk", "築年", "新築", "中古"]

/-- `_is_count_only_query`: a count-intent keyword is present and no
complex-condition keyword is. -/
def is_count_only_query (message : String) : Bool :=
  let ml := asciiLower message
  let pat1 := count_keywords.any fun k => strContains ml k
  let pat2 := strContains ml "物件" && (strContains ml "何" || strContains ml "いくつ")
  let pat3 := strContains ml "データベース" && (strContains ml "何" || strContains ml "いくつ")
  let hasComplex := complex_keywords.any fun k => strContains ml k
  (pat1 || pat2 || pat3) && !hasComplex

/-- Leftmost regex match of `(\d+)lit`: the value of the first maximal
digit run that is immediately followed by the literal `lit`. -/
def findNumBeforeLit (lit : List Char) : List Char → Option ℕ
  | [] => none
  | c :: rest =>
    if c.isDigit then
      let run := c :: rest.takeWhile Char.isDigit
      let after := rest.dropWhile Char.isDigit
      if leadsWith lit after then some (digitsToNat run) else findNumBeforeLit lit rest
    else findNumBeforeLit lit rest

/-- One step of the `_fallback_query_analysis` price-pattern loop. -/
def applyPricePattern (ml : List Char) (lit : List Char) (isMan : Bool) (isMax : Bool)
    (qa : QueryAnalysis) : QueryAnalysis :=
  match findNumBeforeLit lit ml with
  | none => qa
  | some n =>
    let price : ℤ := if isMan then (n : ℤ) * 10000 else (n : ℤ)
    if isMax then { qa with max_price := some price, query_type := "complex_search" }
    else { qa with min_price := some price, query_type := "complex_search" }

/-- `_fallback_query_analysis`: the deterministic intent extractor used
when the LLM analysis is unavailable or unparsable. -/
def fallback_query_analysis (message : String) : QueryAnalysis :=
  let ml := asciiLower message
  let base : QueryAnalysis := { query_type := "complex_search" }
  let withLoc :=
    if strContains ml "船橋法典" then
      { base with stations := ["船橋法典"], query_type := "location_analysis" }
    else if strContains ml "船橋" then
      { base with cities := ["船橋"], query_type := "location_analysis" }
    else if strContains ml "千葉" then
      { base with prefectures := ["千葉"], query_type := "location_analysis" }
    else base
  let q1 := applyPricePattern ml.data "万円以下".data true true withLoc
  let q2 := applyPricePattern ml.data "万円以上".data true false q1
  let q3 := applyPricePattern ml.data "円以下".data false true q2
  applyPricePattern ml.data "円以上".data false false q3

/-- The observable outcome of `analyze_query` (agent name, response text,
confidence, and the metadata consulted by the claims; the structured
property-table payload is outside the modelled observables). -/
structure AgentResponse where
  agent_name : String
  response : String
  confidence : ℚ
  query_type : String
  total_count : Option ℕ := none
  error : Option String := none
deriving DecidableEq

/-- The count-only branch of `analyze_query`. -/
def countOnlyResponse (dbTotal : ℕ) : AgentResponse :=
  { agent_name := "property_analysis",
    response := "物件のデータベースには合計" ++ pyFmtCommaNat dbTotal ++
      "件の物件が登録されています。",
    confidence := 1,
    query_type := "count_only",
    total_count := some dbTotal }

/-- The direct-location branch of `analyze_query` (reached when
`_check_direct_location_query` returned a non-empty list). -/
def directLocationResponse (llmResponse : Option String) (message : String)
    (directLoc : List Listing) (pre : Preproc) : AgentResponse :=
  let analysis := analyze_search_results directLoc
  { agent_name := "property_analysis",
    response := generate_ai_response llmResponse message directLoc analysis (some pre),
    confidence := 95 / 100,
    query_type := "direct_location_search" }

/-- The complex-search branch of `analyze_query`: LLM analysis (with
deterministic fallback), search execution, result analysis, response
generation (with deterministic fallback). -/
def complexSearchResponse (llmAnalysis : Option QueryAnalysis)
    (llmResponse : Option String) (message : String) (table : List Listing)
    (pre : Preproc) : AgentResponse :=
  let qa := match llmAnalysis with
            | some a => a
            | none => fallback_query_analysis message
  let search_results := execute_complex_search qa table
  let analysis := analyze_search_results search_results
  { agent_name := "property_analysis",
    response := generate_ai_response llmResponse message search_results analysis (some pre),
    confidence := 95 / 100,
    query_type := qa.query_type }

/-- `analyze_query` routing (lines 396-430 plus the direct/complex
branches; the unreachable duplicated geo block at lines 432-524 is not
modelled).  `geoResp`/`areaResp` stand for the results of the separate
`_handle_geo_search`/`_handle_area_search` methods, `detected` for the
address-detection regex outcome, `directLoc` for
`_check_direct_location_query`, and `preproc` for the LLM location
preprocessing (`none` = unavailable, replaced by its exception default). -/
def analyze_query (message : String) (active_function : Option String)
    (geoResp areaResp : AgentResponse) (dbTotal : ℕ)
    (detected : Option String) (preproc : Option Preproc)
    (directLoc : List Listing) (table : List Listing)
    (llmAnalysis : Option QueryAnalysis) (llmResponse : Option String) :
    AgentResponse :=
  if active_function = some "geo" then geoResp
  else if active_function = some "area" then areaResp
  else if is_count_only_query message then countOnlyResponse dbTotal
  else if detected.isSome then geoResp
  else
    let pre := preproc.getD fallbackPreproc
    if directLoc.isEmpty then complexSearchResponse llmAnalysis llmResponse message table pre
    else directLocationResponse llmResponse message directLoc pre

/-! ## Structural lemmas -/

lemma normalize_location_text_eq_map (s : String) :
    normalize_location_text s = (if s = "" then s else ⟨s.data.map normSubstChar⟩) := by
  unfold normalize_location_text
  by_cases h : s = ""
  · simp [h]
  · simp only [h, if_false]
    congr 1
    simp only [replaceChar, List.map_map]
    apply List.map_congr_left
    intro c _
    simp only [Function.comp, normSubstChar]
    by_cases h1 : c = 'ヶ'
    · simp [h1]
    · by_cases h2 : c = 'が'
      · simp [h1, h2]
      · by_cases h3 : c = 'ヴ'
        · simp [h1, h2, h3]
        · simp [h1, h2, h3]

lemma normSubstChar_idem (c : Char) : normSubstChar (normSubstChar c) = normSubstChar c := by
  unfold normSubstChar
  by_cases h1 : c = 'ヶ'
  · simp [h1]
  · by_cases h2 : c = 'が'
    · simp [h1, h2]
    · by_cases h3 : c = 'ヴ'
      · simp [h1, h2, h3]
      · simp [h1, h2, h3]

lemma length_insertDescBy {α : Type} (gt : α → α → Bool) (x : α) (l : List α) :
    (insertDescBy gt x l).length = l.length + 1 := by
  induction l with
  | nil => rfl
  | cons y ys ih =>
    simp only [insertDescBy]
    split
    · simp [ih]
    · simp

lemma length_sortDescBy {α : Type} (gt : α → α → Bool) (l : List α) :
    (sortDescBy gt l).length = l.length := by
  induction l with
  | nil => rfl
  | cons x xs ih => simp [sortDescBy, length_insertDescBy, ih]

lemma insertDescBy_ne_nil {α : Type} (gt : α → α → Bool) (x : α) (l : List α) :
    insertDescBy gt x l ≠ [] := by
  cases l with
  | nil => simp [insertDescBy]
  | cons y ys =>
    simp only [insertDescBy]
    split <;> simp

lemma length_attachDedupMeta (r0 : Listing) (stats : DedupStats) (l : List Listing) :
    (attachDedupMeta r0 stats l).length = l.length := by
  cases l with
  | nil => rfl
  | cons u0 urest =>
    simp only [attachDedupMeta]
    split <;> simp

lemma dedupLoop_length (now : ℤ) (l : List Listing)
    (seen : List (String × String × String)) :
    (dedupLoop now l seen).1.length + (dedupLoop now l seen).2 = l.length := by
  induction l generalizing seen with
  | nil => rfl
  | cons r rs ih =>
    simp only [dedupLoop]
    split
    · have h := ih seen
      simp only [List.length_cons]
      omega
    · have h := ih (duplicateKey r :: seen)
      simp only [List.length_cons]
      omega

/-! ## C9: normalization idempotence -/

/-- C9: location-text normalization is idempotent: for every string `s`,
`normalize(normalize(s)) = normalize(s)` for the ordered
character-substitution function applied before substring matching. -/
theorem normalize_location_text_idem (s : String) :
    normalize_location_text (normalize_location_text s) = normalize_location_text s := by
  rw [normalize_location_text_eq_map s, normalize_location_text_eq_map]
  by_cases h : s = ""
  · simp [h]
  · simp only [h, if_false]
    have h2 : ((⟨s.data.map normSubstChar⟩ : String) = "") ↔ (s = "") := by
      obtain ⟨l⟩ := s
      constructor
      · intro hcontra
        have hdata := congrArg String.data hcontra
        simp only [String.data] at hdata
        have hl : l = [] := List.map_eq_nil_iff.mp hdata
        subst hl
        rfl
      · intro hcontra
        exact absurd hcontra h
    simp only [h2, h, if_false]
    congr 1
    show (s.data.map normSubstChar).map normSubstChar = s.data.map normSubstChar
    rw [List.map_map]
    apply List.map_congr_left
    intro c _
    exact normSubstChar_idem c

/-! ## C10: dedup statistics invariants -/

/-- C10: for every input list, the deduplicator's statistics are mutually
consistent: `original_count` equals the input length, `unique_count` equals
the output length, `original_count = duplicates_removed + unique_count`,
and the output is never longer than the input. -/
theorem remove_duplicates_stats_consistent (now : ℤ) (results : List Listing) :
    (remove_duplicates now results).2.original_count = results.length ∧
    (remove_duplicates now results).2.unique_count =
      (remove_duplicates now results).1.length ∧
    (remove_duplicates now results).2.original_count =
      (remove_duplicates now results).2.duplicates_removed +
        (remove_duplicates now results).2.unique_count ∧
    (remove_duplicates now results).1.length ≤ results.length := by
  cases results with
  | nil => simp [remove_duplicates]
  | cons r0 rest =>
    have hlen := dedupLoop_length now (r0 :: rest) []
    simp only [remove_duplicates, length_attachDedupMeta, length_sortDescBy]
    refine ⟨?_, ?_, ?_, ?_⟩ <;> first | trivial | (simp only [List.length_cons] at *; omega)

/-! ## C8: recommendation score range and neutral default -/

/-- C8: for every listing record, the recommendation score lies in the
closed interval [0, 100]; and when the listing date field is missing or
unparsable, the recency sub-scorer contributes the neutral score 50 with
weight 1.0. -/
theorem recommendation_score_range_and_neutral_default (now : ℤ) (p : Listing) :
    (0 ≤ calculate_recommendation_score now p ∧
      calculate_recommendation_score now p ≤ 100) ∧
    ((p.last_listed_date = none ∨
        ∃ s, p.last_listed_date = some s ∧ parseListedDate s = none) →
      score_by_listing_date now p = (50, 1)) := by
  constructor
  · simp only [calculate_recommendation_score]
    split
    · norm_num
    · constructor
      · exact le_min (by norm_num) (le_max_left 0 _)
      · exact min_le_left _ _
  · intro h
    unfold score_by_listing_date
    rcases h with h | ⟨s, hs, hp⟩
    · simp [h]
    · rw [hs]
      by_cases he : s = ""
      · simp [he]
      · simp [he, hp]

def c8Listing : Listing := { last_listed_date := some "unknown" }

/-- Witness for C8 at a record whose date string is unparsable. -/
theorem recommendation_score_range_and_neutral_default_witness :
    (0 ≤ calculate_recommendation_score 0 c8Listing ∧
      calculate_recommendation_score 0 c8Listing ≤ 100) ∧
    score_by_listing_date 0 c8Listing = (50, 1) :=
  ⟨(recommendation_score_range_and_neutral_default 0 c8Listing).1,
   (recommendation_score_range_and_neutral_default 0 c8Listing).2
     (Or.inr ⟨"unknown", rfl, by decide⟩)⟩

/-! ## C7: dedup key collapses house-number suffix variants -/

lemma takeUntil_append_cons (c : Char) (p s : List Char) (hp : c ∉ p) :
    takeUntil c (p ++ c :: s) = p := by
  induction p with
  | nil => simp [takeUntil]
  | cons a as ih =>
    have ha : a ≠ c := by
      intro h
      exact hp (h ▸ List.mem_cons_self a as)
    have hrest : c ∉ as := fun h => hp (List.mem_cons_of_mem a h)
    have ihr := ih hrest
    simp only [takeUntil, List.cons_append, List.takeWhile_cons, ne_eq, decide_not] at *
    simp [ha, ihr]

lemma contains_append_cons (c : Char) (p s : List Char) :
    (p ++ c :: s).contains c = true := by
  induction p with
  | nil => simp
  | cons a as ih => simp [ih]

lemma addressTail_empty : addressTailAfterWardCity "" = [] := rfl

lemma normalize_address_of_tail (a : String) (p s : List Char)
    (ha : addressTailAfterWardCity a = p ++ '-' :: s) (hp : ('-' : Char) ∉ p) :
    normalize_address_for_dedup a = ⟨stripChars p⟩ := by
  have hne : a ≠ "" := by
    intro h
    rw [h, addressTail_empty] at ha
    exact (List.append_ne_nil_of_right_ne_nil p (List.cons_ne_nil _ _)) ha.symm
  unfold normalize_address_for_dedup
  simp only [hne, if_false, ha, contains_append_cons, if_true,
    takeUntil_append_cons '-' p s hp]

/-- C7: two listing records with identical price string, identical
normalized floor plan, and address tails (after the last ward/city suffix
token) that agree up to the first hyphen receive the same dedup key, and
exactly one surviving record is retained. -/
theorem dedup_collapses_house_number_variants (now : ℤ) (r1 r2 : Listing)
    (p s1 s2 : List Char)
    (hpr : r1.mi_price = r2.mi_price)
    (hfp : normalizeFloorPlan (r1.floor_plan.getD "") =
      normalizeFloorPlan (r2.floor_plan.getD ""))
    (ha1 : addressTailAfterWardCity (r1.address.getD "") = p ++ '-' :: s1)
    (ha2 : addressTailAfterWardCity (r2.address.getD "") = p ++ '-' :: s2)
    (hp : ('-' : Char) ∉ p) :
    duplicateKey r1 = duplicateKey r2 ∧
    (remove_duplicates now [r1, r2]).1.length = 1 ∧
    (remove_duplicates now [r1, r2]).2.duplicates_removed = 1 ∧
    (remove_duplicates now [r1, r2]).2.unique_count = 1 := by
  have hkey : duplicateKey r1 = duplicateKey r2 := by
    unfold duplicateKey
    rw [normalize_address_of_tail _ p s1 ha1 hp, normalize_address_of_tail _ p s2 ha2 hp,
      hpr, hfp]
  have hloop : dedupLoop now [r1, r2] [] =
      ([{ r1 with recommendation_score := some (calculate_recommendation_score now r1),
                  dedup_key := some (duplicateKey r1) }], 1) := by
    simp only [dedupLoop]
    rw [← hkey]
    simp [List.contains]
  refine ⟨hkey, ?_, ?_, ?_⟩ <;>
    simp [remove_duplicates, hloop, length_attachDedupMeta, length_sortDescBy]

def c7r1 : Listing :=
  { address := some "神奈川県川崎市幸区小倉3-1", mi_price := some "35000000",
    floor_plan := some "3LDK" }

def c7r2 : Listing :=
  { address := some "神奈川県川崎市幸区小倉3-9", mi_price := some "35000000",
    floor_plan := some "3LDK+S（納戸）" }

/-- Witness for C7: concrete listings differing only in house-number suffix
(and a storage-room floor-plan annotation) collapse to one record. -/
theorem dedup_collapses_house_number_variants_witness :
    duplicateKey c7r1 = duplicateKey c7r2 ∧
    (remove_duplicates 0 [c7r1, c7r2]).1.length = 1 ∧
    (remove_duplicates 0 [c7r1, c7r2]).2.duplicates_removed = 1 ∧
    (remove_duplicates 0 [c7r1, c7r2]).2.unique_count = 1 :=
  dedup_collapses_house_number_variants 0 c7r1 c7r2
    "小倉3".data "1".data "9".data
    rfl (by decide) (by decide) (by decide) (by decide)

/-! ## C1: deduplication versus the out-of-band total count -/

def c1r1 : Listing :=
  { address := some "東京都A区B1-1", mi_price := some "50000000",
    floor_plan := some "3LDK", total_count := some 100 }

def c1r2 : Listing :=
  { address := some "東京都A区B1-2", mi_price := some "50000000",
    floor_plan := some "3LDK" }

/-- C1 counterexample: a sample of two duplicate rows whose first row
carries the COUNT-query total `_total_count = 100`; after `_remove_duplicates`
the analysis sees `total_count = 1` (the deduplicated sample length), not
the out-of-band total 100. -/
theorem dedup_replaces_total_count_counterexample :
    c1r1.total_count = some 100 ∧
    (analyze_search_results (remove_duplicates 0 [c1r1, c1r2]).1).total_count = 1 ∧
    (1 : ℕ) ≠ 100 := by
  refine ⟨rfl, ?_, by decide⟩
  decide

/-- C1 (amended): `_remove_duplicates` always overwrites the head row's
out-of-band `_total_count` with the deduplicated sample length, and
`_analyze_search_results` then reports exactly that length as
`total_count` (the original COUNT-query total survives only on paths that
re-attach it after deduplication). -/
theorem remove_duplicates_overwrites_total_count (now : ℤ) (rows : List Listing)
    (h : rows ≠ []) :
    ∃ u us, (remove_duplicates now rows).1 = u :: us ∧
      u.total_count = some (us.length + 1) ∧
      (analyze_search_results (remove_duplicates now rows).1).total_count =
        us.length + 1 := by
  obtain ⟨r0, rest, rfl⟩ := List.exists_cons_of_ne_nil h
  simp only [remove_duplicates]
  have hne : (dedupLoop now (r0 :: rest) []).1 ≠ [] := by
    simp only [dedupLoop]
    simp [List.contains]
  have hsne : sortDescBy scoreGt (dedupLoop now (r0 :: rest) []).1 ≠ [] := by
    cases hdl : (dedupLoop now (r0 :: rest) []).1 with
    | nil => exact absurd hdl hne
    | cons v vs =>
      simp only [sortDescBy]
      exact insertDescBy_ne_nil _ _ _
  obtain ⟨u0, urest, hs⟩ := List.exists_cons_of_ne_nil hsne
  rw [hs]
  simp only [attachDedupMeta]
  split
  · refine ⟨_, _, rfl, rfl, ?_⟩
    simp [analyze_search_results]
  · refine ⟨_, _, rfl, rfl, ?_⟩
    simp [analyze_search_results]

/-- Witness for the amended C1 at a concrete one-row sample. -/
theorem remove_duplicates_overwrites_total_count_witness :
    ([c1r1] : List Listing) ≠ [] ∧
    ∃ u us, (remove_duplicates 0 [c1r1]).1 = u :: us ∧
      u.total_count = some (us.length + 1) ∧
      (analyze_search_results (remove_duplicates 0 [c1r1]).1).total_count =
        us.length + 1 :=
  ⟨by decide, remove_duplicates_overwrites_total_count 0 [c1r1] (by decide)⟩

/-! ## C2: zero-row searches fabricate a placeholder row -/

def c2qa : QueryAnalysis := { prefectures := ["東京都"] }

def c2row : Listing :=
  { address := some "大阪府大阪市北区梅田1", pref := some "大阪府",
    mi_price := some "40000000", floor_plan := some "2LDK" }

/-- C2 counterexample: a predicate matching zero rows makes
`_execute_complex_search` return a one-element list holding a synthesized
metadata-only placeholder row (`{'_total_count': 0}`), not an empty result
list; the placeholder corresponds to no database row. -/
theorem complex_search_fabricates_placeholder_counterexample :
    execute_complex_search c2qa [c2row] = [placeholderRow 0] ∧
    (execute_complex_search c2qa [c2row]).length = 1 ∧
    (placeholderRow 0).address = none ∧
    (placeholderRow 0).mi_price = none ∧
    (placeholderRow 0).total_count = some 0 ∧
    placeholderRow 0 ∉ ([c2row] : List Listing) := by
  refine ⟨?_, ?_, rfl, rfl, rfl, ?_⟩ <;> decide

def c2rowTokyo : Listing :=
  { address := some "東京都台東区上野5-1", pref := some "東京都",
    mi_price := some "60000000", floor_plan := some "1LDK" }

/-- C2 (amended): whenever the WHERE predicate matches no row of the table,
`_execute_complex_search` returns exactly the fabricated placeholder row
carrying `_total_count = 0` (the zero total is thus reported, but through a
synthesized row rather than a separate channel); when it matches rows, all
returned elements are real matching rows with the total attached to the
first one. -/
theorem complex_search_zero_rows_placeholder (qa : QueryAnalysis)
    (table : List Listing) :
    (table.filter (rowMatches qa) = [] →
      execute_complex_search qa table = [placeholderRow 0]) ∧
    (∀ r rs, table.filter (rowMatches qa) = r :: rs →
      execute_complex_search qa table =
        ({ r with total_count := some (rs.length + 1) } : Listing) :: rs) := by
  constructor
  · intro h
    simp only [execute_complex_search, h, List.length_nil]
  · intro r rs h
    simp only [execute_complex_search, h, List.length_cons]

/-- Witness for the amended C2: a non-matching table yields the placeholder,
a matching singleton table yields the row with its count attached. -/
theorem complex_search_zero_rows_placeholder_witness :
    ([c2row] : List Listing).filter (rowMatches c2qa) = [] ∧
    execute_complex_search c2qa [c2row] = [placeholderRow 0] ∧
    execute_complex_search c2qa [c2rowTokyo] =
      [({ c2rowTokyo with total_count := some 1 } : Listing)] :=
  ⟨by decide,
   (complex_search_zero_rows_placeholder c2qa [c2row]).1 (by decide),
   (complex_search_zero_rows_placeholder c2qa [c2rowTokyo]).2 c2rowTokyo [] (by decide)⟩

/-! ## C3: "not found" validation on the two response paths -/

def c3Bad : String := "該当する物件が見つかりませんでした"

def c3Listing : Listing :=
  { address := some "東京都新宿区西新宿1", mi_price := some "50000000",
    floor_plan := some "3LDK" }

/-- C3 counterexample: on the geo-radius path, an LLM answer claiming "no
results" while `total_count = 1 > 0` is returned verbatim; the
deterministic composer's output is not substituted. -/
theorem geo_response_keeps_llm_not_found_counterexample :
    0 < (analyze_search_results [c3Listing]).total_count ∧
    strContains c3Bad "見つかりませんでした" = true ∧
    generate_geo_search_response (some c3Bad) "東京都新宿区西新宿1-1" [c3Listing]
      (analyze_search_results [c3Listing]) 35 139 (1 / 2) = c3Bad ∧
    c3Bad ≠
      generate_geo_fallback_response "東京都新宿区西新宿1-1" [c3Listing] 1 35 139 (1 / 2) := by
  refine ⟨by decide, by decide, rfl, by decide⟩

/-- C3 (amended): the forced substitution of the deterministic composer on
an LLM "no results" claim with `total_count > 0` exists only on the
complex-search path (`_generate_ai_response`); the geo-radius path returns
any produced LLM text unchanged and falls back only when the LLM is
unavailable or raises. -/
theorem llm_not_found_fallback_complex_path_only
    (r message : String) (results geoResults : List Listing)
    (analysis geoAnalysis : Analysis) (pre : Option Preproc)
    (addr : String) (lat lon rad : ℚ)
    (h1 : 0 < analysis.total_count)
    (h2 : strContains r "見つかりませんでした" = true) :
    generate_ai_response (some r) message results analysis pre =
      generate_fallback_response message results analysis pre ∧
    generate_geo_search_response (some r) addr geoResults geoAnalysis lat lon rad = r ∧
    generate_geo_search_response none addr geoResults geoAnalysis lat lon rad =
      generate_geo_fallback_response addr geoResults geoResults.length lat lon rad := by
  refine ⟨?_, rfl, rfl⟩
  simp only [generate_ai_response]
  rw [if_pos ⟨h1, Or.inr h2⟩]

/-- Witness for the amended C3 at concrete inputs. -/
theorem llm_not_found_fallback_complex_path_only_witness :
    0 < (analyze_search_results [c3Listing]).total_count ∧
    strContains c3Bad "見つかりませんでした" = true ∧
    (generate_ai_response (some c3Bad) "新宿の物件" [c3Listing]
        (analyze_search_results [c3Listing]) none =
      generate_fallback_response "新宿の物件" [c3Listing]
        (analyze_search_results [c3Listing]) none ∧
      generate_geo_search_response (some c3Bad) "東京都新宿区西新宿1-1" [c3Listing]
        (analyze_search_results [c3Listing]) 35 139 (1 / 2) = c3Bad ∧
      generate_geo_search_response none "東京都新宿区西新宿1-1" [c3Listing]
        (analyze_search_results [c3Listing]) 35 139 (1 / 2) =
        generate_geo_fallback_response "東京都新宿区西新宿1-1" [c3Listing]
          ([c3Listing] : List Listing).length 35 139 (1 / 2)) :=
  ⟨by decide, by decide,
   llm_not_found_fallback_complex_path_only c3Bad "新宿の物件" [c3Listing] [c3Listing]
     (analyze_search_results [c3Listing]) (analyze_search_results [c3Listing]) none
     "東京都新宿区西新宿1-1" 35 139 (1 / 2) (by decide) (by decide)⟩

/-! ## C4: classifier precedence of the explicit mode flag -/

def c4geoResp : AgentResponse :=
  { agent_name := "property_analysis", response := "geo search result",
    confidence := 95 / 100, query_type := "geo_search" }

def c4areaResp : AgentResponse :=
  { agent_name := "property_analysis", response := "area search result",
    confidence := 9 / 10, query_type := "area_search" }

/-- C4 counterexample: a message satisfying the count-only condition,
issued together with the caller-supplied mode flag `geo`, is answered by
the geo handler and not by the count-only branch — the explicit override
is evaluated before the count-only state. -/
theorem count_only_loses_to_mode_flag_counterexample :
    is_count_only_query "全部で何件ありますか" = true ∧
    analyze_query "全部で何件ありますか" (some "geo") c4geoResp c4areaResp 42
      none none [] [] none none = c4geoResp ∧
    c4geoResp.query_type ≠ "count_only" ∧
    c4geoResp ≠ countOnlyResponse 42 := by
  refine ⟨by decide, rfl, by decide, by decide⟩

/-- C4 (amended): `analyze_query` evaluates the explicit caller-supplied
mode flag (`geo`/`area`) first; the count-only branch answers only when no
mode flag is present, in which case it does take precedence over every
later state (address detection, direct location, complex search). -/
theorem classifier_flag_then_count_only (message : String)
    (geoResp areaResp : AgentResponse) (dbTotal : ℕ)
    (detected : Option String) (preproc : Option Preproc)
    (directLoc table : List Listing)
    (llmAnalysis : Option QueryAnalysis) (llmResponse : Option String)
    (h : is_count_only_query message = true) :
    analyze_query message (some "geo") geoResp areaResp dbTotal detected preproc
      directLoc table llmAnalysis llmResponse = geoResp ∧
    analyze_query message (some "area") geoResp areaResp dbTotal detected preproc
      directLoc table llmAnalysis llmResponse = areaResp ∧
    analyze_query message none geoResp areaResp dbTotal detected preproc
      directLoc table llmAnalysis llmResponse = countOnlyResponse dbTotal := by
  refine ⟨rfl, ?_, ?_⟩
  · simp [analyze_query]
  · simp [analyze_query, h]

/-- Witness for the amended C4 at a concrete count-only message. -/
theorem classifier_flag_then_count_only_witness :
    is_count_only_query "物件数を教えて" = true ∧
    (analyze_query "物件数を教えて" (some "geo") c4geoResp c4areaResp 7
        none none [] [] none none = c4geoResp ∧
      analyze_query "物件数を教えて" (some "area") c4geoResp c4areaResp 7
        none none [] [] none none = c4areaResp ∧
      analyze_query "物件数を教えて" none c4geoResp c4areaResp 7
        none none [] [] none none = countOnlyResponse 7) :=
  ⟨by decide,
   classifier_flag_then_count_only "物件数を教えて" c4geoResp c4areaResp 7
     none none [] [] none none (by decide)⟩

/-! ## C5: deterministic fallback under LLM unavailability -/

def c5geoResp : AgentResponse :=
  { agent_name := "property_analysis", response := "geo", confidence := 95 / 100,
    query_type := "geo_search" }

def c5areaResp : AgentResponse :=
  { agent_name := "property_analysis", response := "area", confidence := 9 / 10,
    query_type := "area_search" }

def c5row : Listing :=
  { address := some "千葉県船橋市本町2-1", pref := some "千葉県",
    mi_price := some "30000000", floor_plan := some "3LDK" }

/-- C5: with the text-completion capability unavailable on every call
(both the analysis and the response LLM results are the `none` sentinel),
`analyze_query` on the complex path still returns a non-error response:
its text is composed by the deterministic fallback extractor
(`_fallback_query_analysis`) and fallback composer
(`_generate_fallback_response`), the confidence is the normal 0.95, and no
error is surfaced. -/
theorem llm_unavailable_deterministic_fallback (message : String)
    (geoResp areaResp : AgentResponse) (dbTotal : ℕ) (table : List Listing)
    (h : is_count_only_query message = false) :
    (analyze_query message none geoResp areaResp dbTotal none none [] table
        none none).error = none ∧
    (analyze_query message none geoResp areaResp dbTotal none none [] table
        none none).confidence = 95 / 100 ∧
    (analyze_query message none geoResp areaResp dbTotal none none [] table
        none none).response =
      generate_fallback_response message
        (execute_complex_search (fallback_query_analysis message) table)
        (analyze_search_results
          (execute_complex_search (fallback_query_analysis message) table))
        (some fallbackPreproc) := by
  have hroute : analyze_query message none geoResp areaResp dbTotal none none [] table
      none none = complexSearchResponse none none message table fallbackPreproc := by
    simp [analyze_query, h]
  rw [hroute]
  exact ⟨rfl, rfl, rfl⟩

/-- Witness for C5 at a concrete message and table. -/
theorem llm_unavailable_deterministic_fallback_witness :
    is_count_only_query "3LDK 5000万円以下 千葉" = false ∧
    ((analyze_query "3LDK 5000万円以下 千葉" none c5geoResp c5areaResp 9 none none []
        [c5row] none none).error = none ∧
      (analyze_query "3LDK 5000万円以下 千葉" none c5geoResp c5areaResp 9 none none []
        [c5row] none none).confidence = 95 / 100 ∧
      (analyze_query "3LDK 5000万円以下 千葉" none c5geoResp c5areaResp 9 none none []
        [c5row] none none).response =
        generate_fallback_response "3LDK 5000万円以下 千葉"
          (execute_complex_search (fallback_query_analysis "3LDK 5000万円以下 千葉") [c5row])
          (analyze_search_results
            (execute_complex_search (fallback_query_analysis "3LDK 5000万円以下 千葉")
              [c5row]))
          (some fallbackPreproc)) :=
  ⟨by decide,
   llm_unavailable_deterministic_fallback "3LDK 5000万円以下 千葉" c5geoResp c5areaResp 9
     [c5row] (by decide)⟩

/-! ## C6: refinement-suggestion threshold -/

lemma leadsWith_append_self (p t : List Char) : leadsWith p (p ++ t) = true := by
  induction p with
  | nil => rfl
  | cons a as ih => simp [leadsWith, ih]

lemma occursIn_of_leadsWith (pat l : List Char) (h : leadsWith pat l = true) :
    occursIn pat l = true := by
  cases l with
  | nil =>
    cases pat with
    | nil => rfl
    | cons a as => exact absurd h (by simp [leadsWith])
  | cons c rest => simp [occursIn, h]

lemma occursIn_append_left (pat s t : List Char) (h : occursIn pat t = true) :
    occursIn pat (s ++ t) = true := by
  induction s with
  | nil => simpa
  | cons c cs ih => simp [occursIn, ih]

lemma strContains_joinNL_of_mem (s : String) (parts : List String)
    (h : s ∈ parts) : strContains (joinNL parts) s = true := by
  induction parts with
  | nil => cases h
  | cons x rest ih =>
    cases rest with
    | nil =>
      have hx : s = x := by simpa using h
      subst hx
      exact occursIn_of_leadsWith _ _ (by simpa using leadsWith_append_self s.data [])
    | cons y t =>
      rcases List.mem_cons.mp h with hx | hmem
      · subst hx
        show occursIn s.data (s ++ "\n" ++ joinNL (y :: t)).data = true
        have hdata : (s ++ "\n" ++ joinNL (y :: t)).data =
            s.data ++ ("\n" ++ joinNL (y :: t)).data := by
          simp [String.data_append]
        rw [hdata]
        exact occursIn_of_leadsWith _ _ (leadsWith_append_self _ _)
      · have hrec := ih hmem
        show occursIn s.data (x ++ "\n" ++ joinNL (y :: t)).data = true
        have hdata : (x ++ "\n" ++ joinNL (y :: t)).data =
            (x ++ "\n").data ++ (joinNL (y :: t)).data := by
          simp [String.data_append]
        rw [hdata]
        exact occursIn_append_left _ _ _ hrec

def c6Analysis (n : ℕ) : Analysis :=
  { total_count := n, price_stats := none, prefecture_distribution := [],
    floor_plan_distribution := [] }

def c6resp (n : ℕ) : String :=
  generate_fallback_response "東京都のマンションを探しています" [] (c6Analysis n) none

lemma refine_marker_mem_parts (msg : String) (results : List Listing)
    (analysis : Analysis) (pre : Option Preproc)
    (hn : 100 < analysis.total_count) :
    "【絞り込み推奨】" ∈ fallbackResponseParts msg results analysis pre := by
  unfold fallbackResponseParts
  simp only [hn, if_true, List.mem_append, List.mem_cons]
  simp [hn]

set_option maxRecDepth 4096 in
/-- C6: the deterministic response composer includes the
refinement-suggestion block exactly when `total_count` exceeds 100: every
total above 100 (e.g. 150) produces response text containing the block, and
no total of at most 100 (in particular 99 and exactly 100) does. -/
theorem refinement_block_iff_over_100 :
    (∀ n : ℕ, 100 < n → strContains (c6resp n) "【絞り込み推奨】" = true) ∧
    (∀ n : ℕ, n ≤ 100 → strContains (c6resp n) "【絞り込み推奨】" = false) ∧
    strContains (c6resp 150) "【絞り込み推奨】" = true ∧
    strContains (c6resp 99) "【絞り込み推奨】" = false := by
  have hgen : ∀ n : ℕ, 100 < n → strContains (c6resp n) "【絞り込み推奨】" = true := by
    intro n hn
    unfold c6resp generate_fallback_response
    rw [if_neg (by simp [c6Analysis]; omega)]
    exact strContains_joinNL_of_mem _ _
      (refine_marker_mem_parts _ _ _ _ (by simpa [c6Analysis] using hn))
  exact ⟨hgen, by decide, hgen 150 (by norm_num), by decide⟩

/-- Witness for C6 at the total 150. -/
theorem refinement_block_iff_over_100_witness :
    100 < 150 ∧ strContains (c6resp 150) "【絞り込み推奨】" = true :=
  ⟨by norm_num, refinement_block_iff_over_100.1 150 (by norm_num)⟩

end PropertyAgent
